import Mathlib

/-!
Verification development for the SmartDocs knowledge-base ingestion and
session-context pipeline.

The definitions below are a shallow embedding of the TypeScript sources:
  - types.ts          : the data model (Role, Message, UploadedFile, KnowledgeBase,
                        UsageStats, ChatState)
  - geminiService.ts  : buildSystemInstruction, estimateTokenCount, and the error
                        translation in sendMessageStream
  - FileUpload.tsx    : the archive/text normalizer in handleFileChange
  - App.tsx           : the session lifecycle, streaming exchange, and persistence
                        handlers, modelled as pure state transformers over an
                        explicit AppState; external effects (token counting,
                        stream transport, durable storage writes, confirm
                        dialogs) are passed in as explicit outcome parameters.

JavaScript strings are modelled as Lean String values; JS helper functions
(trim, includes, startsWith, endsWith, join, toLowerCase) are modelled by
executable Lean functions with the same semantics on these values.
-/

/-- Role enum from types.ts: message author, either the user or the model. -/
inductive Role where
  | USER
  | MODEL
deriving DecidableEq

/-- Message record from types.ts. The optional isError flag is an Option Bool;
messages created without the flag carry none. Timestamps are modelled as Nat. -/
structure Message where
  id : String
  role : Role
  text : String
  timestamp : Nat
  isError : Option Bool := none
deriving DecidableEq

/-- UploadedFile record from types.ts: one normalized document of the knowledge base. -/
structure UploadedFile where
  id : String
  name : String
  content : String
  size : Nat
  type : String
deriving DecidableEq

/-- KnowledgeBase record from types.ts: a persisted named snapshot of the document list. -/
structure KnowledgeBase where
  id : String
  name : String
  createdAt : Nat
  files : List UploadedFile
deriving DecidableEq

/-- UsageStats record from types.ts: the usage report of one streaming exchange. -/
structure UsageStats where
  promptTokenCount : Nat
  candidatesTokenCount : Nat
  totalTokenCount : Nat
deriving DecidableEq

/-- ChatState record from types.ts: the conversation state of the active session. -/
structure ChatState where
  messages : List Message
  isLoading : Bool
  streamingText : String
  totalInputTokens : Nat
  totalOutputTokens : Nat
deriving DecidableEq

/-! JavaScript string helpers used by the sources. -/

/-- Model of the JS whitespace test used by String.prototype.trim. -/
def jsWhitespace (c : Char) : Bool := c.isWhitespace

/-- Characters of a JS string with leading whitespace removed. -/
def dropLeadingWS (l : List Char) : List Char := l.dropWhile jsWhitespace

/-- Characters of a JS string with trailing whitespace removed. -/
def dropTrailingWS (l : List Char) : List Char := (l.reverse.dropWhile jsWhitespace).reverse

/-- Model of JS String.prototype.trim: strip whitespace from both ends. -/
def jsTrim (s : String) : String := ⟨dropTrailingWS (dropLeadingWS s.data)⟩

/-- Helper for jsIncludes: does the second list occur at the head of the first? -/
def startsWithList : List Char → List Char → Bool
  | _, [] => true
  | [], _ :: _ => false
  | a :: as, b :: bs => a == b && startsWithList as bs

/-- Helper for jsIncludes: does the second list occur anywhere in the first? -/
def includesFrom : List Char → List Char → Bool
  | [], sub => sub.isEmpty
  | c :: t, sub => startsWithList (c :: t) sub || includesFrom t sub

/-- Model of JS String.prototype.includes. -/
def jsIncludes (s sub : String) : Bool := includesFrom s.data sub.data

/-- Model of JS String.prototype.startsWith. -/
def jsStartsWith (s pre : String) : Bool := startsWithList s.data pre.data

/-- Model of JS String.prototype.endsWith. -/
def jsEndsWith (s suffix : String) : Bool :=
  startsWithList s.data.reverse suffix.data.reverse

/-- Model of JS String.prototype.toLowerCase on the character level. -/
def jsToLowerChars (l : List Char) : List Char := l.map Char.toLower

/-- Model of JS String.prototype.split on a one-character separator: the
result is the list of (possibly empty) segments between separators and is
never empty. -/
def splitSeg (sep : Char) : List Char → List (List Char)
  | [] => [[]]
  | c :: t =>
    if c = sep then [] :: splitSeg sep t
    else
      match splitSeg sep t with
      | [] => [[c]]
      | h :: r => (c :: h) :: r

/-! Knowledge-Base Assembler (App.tsx handleStartSession line 63 and
geminiService.ts buildSystemInstruction). -/

/-- One entry of the context string: App.tsx line 63, the template literal
applied to one file inside files.map. -/
def fmtDoc (f : UploadedFile) : String :=
  "--- Document: " ++ f.name ++ " ---\n" ++ f.content ++ "\n"

/-- Model of JS Array.prototype.join with separator between elements. -/
def joinNl : List String → String
  | [] => ""
  | [s] => s
  | s :: ss => s ++ "\n" ++ joinNl ss

/-- App.tsx line 63: the knowledge-base context string assembled from the
ordered live file list. -/
def assembleKnowledgeBase (files : List UploadedFile) : String :=
  joinNl (files.map fmtDoc)

/-- Text of the instruction template before the interpolated context
(geminiService.ts buildSystemInstruction, up to the context splice). -/
def instructionPre : String :=
  "\n    You are an expert technical support agent for a specific SDK/Product. \n    You have been provided with the following \"Knowledge Base\" consisting of documentation and historical Q&A.\n    \n    --- START KNOWLEDGE BASE ---\n    "

/-- Text of the instruction template after the interpolated context
(geminiService.ts buildSystemInstruction, from the context splice to the end). -/
def instructionPost : String :=
  "\n    --- END KNOWLEDGE BASE ---\n\n    INSTRUCTIONS:\n    1. Your primary goal is to answer user questions accurately based ONLY on the provided Knowledge Base.\n    2. If the user\x27s question can be answered by the Knowledge Base, provide a clear, technical, and helpful response. Use code snippets if relevant.\n    3. If the user\x27s question is NOT found in the Knowledge Base or is not a general greeting (like \"hi\", \"hello\"), you MUST strictly reply with a variation of: \"I\x27m sorry, but this specific issue isn\x27t covered in my current documentation. Please contact our support team at support@example.com for further assistance.\"\n    4. Do not hallucinate features or APIs that are not in the provided text.\n    5. Maintain a professional, empathetic, and polite tone.\n  "

/-- geminiService.ts buildSystemInstruction: wrap the context in the fixed
instruction template and trim the result. -/
def buildSystemInstruction (context : String) : String :=
  jsTrim (instructionPre ++ context ++ instructionPost)

/-- Full assembly pipeline of App.tsx handleStartSession lines 63 and 66:
assemble the context from the ordered document list and wrap it in the
instruction template. -/
def assemble (files : List UploadedFile) : String :=
  buildSystemInstruction (assembleKnowledgeBase files)

/-- Predicate: the given character lists occur, disjointly and in order, as
infixes of the first list. -/
def containsInOrder : List Char → List (List Char) → Prop
  | _, [] => True
  | s, c :: cs => ∃ p q, s = p ++ c ++ q ∧ containsInOrder q cs

/-! Archive/Text Normalizer (FileUpload.tsx handleFileChange). -/

/-- Allow-list of recognized text/code extensions (FileUpload.tsx TEXT_EXTENSIONS). -/
def TEXT_EXTENSIONS : List String :=
  ["txt", "md", "json", "ts", "js", "tsx", "jsx",
   "cpp", "c", "h", "hpp", "py", "sh", "java",
   "html", "css", "scss", "xml", "yaml", "yml",
   "sql", "rs", "go", "rb", "php"]

/-- FileUpload.tsx isTextFile: the lower-cased extension (last split segment of
the name) must be non-empty and belong to the allow-list. JS split always
returns a non-empty array, so pop yields the last segment; an empty extension
is falsy and rejected. -/
def isTextFile (filename : String) : Bool :=
  let ext : String := ⟨jsToLowerChars ((splitSeg '.' filename.data).getLastD [])⟩
  if ext = "" then false else TEXT_EXTENSIONS.contains ext

/-- One entry of a zip archive as seen by the normalizer: its path-like name,
its directory flag, and its decoded text content. -/
structure ZipEntry where
  name : String
  dir : Bool
  content : String
deriving DecidableEq

/-- Document built from one retained zip entry (FileUpload.tsx lines 47-53):
the name keeps the archive-internal path, the size is the decoded content
length and the media type is fixed to text/plain. The random id of the source
is modelled by an external id supply indexed by the position among retained
entries. -/
def zipEntryDoc (genId : Nat → String) (i : Nat) (e : ZipEntry) : UploadedFile :=
  { id := genId i
    name := e.name
    content := e.content
    size := e.content.length
    type := "text/plain" }

/-- Zip iteration of FileUpload.tsx lines 42-58: skip directory entries,
entries whose name contains the MacOS hidden-metadata marker, and entries
whose name starts with a dot; retain the remaining entries whose extension is
allow-listed, in enumeration order. -/
def processZipGo (genId : Nat → String) (i : Nat) : List ZipEntry → List UploadedFile
  | [] => []
  | e :: es =>
    if e.dir = true ∨ jsIncludes e.name "__MACOSX" = true ∨ jsStartsWith e.name "." = true then
      processZipGo genId i es
    else if isTextFile e.name then
      zipEntryDoc genId i e :: processZipGo genId (i + 1) es
    else
      processZipGo genId i es

/-- Documents produced from the entries of one zip archive. -/
def processZip (genId : Nat → String) (entries : List ZipEntry) : List UploadedFile :=
  processZipGo genId 0 entries

/-- One raw uploaded blob: declared name, declared media type, declared size,
the text obtained when reading it as text, and its archive entries when the
blob is a zip container. -/
structure RawFile where
  name : String
  type : String
  size : Nat
  text : String
  entries : List ZipEntry
deriving DecidableEq

/-- Zip dispatch test of FileUpload.tsx line 36: name ends in .zip or declared
type mentions zip. -/
def isZipUpload (f : RawFile) : Bool :=
  jsEndsWith f.name ".zip" || jsIncludes f.type "zip"

/-- Single-file branches of FileUpload.tsx lines 67-97: allow-listed or
text-typed files are read directly (empty declared type falls back to
text/plain); other files are read best-effort and kept only when the decoded
text has no null byte (declared type kept verbatim). readOk models whether
reading the blob as text succeeded; a failed read is swallowed and the file
omitted. -/
def processSingleFile (genId : String) (f : RawFile) (readOk : Bool) : List UploadedFile :=
  if isTextFile f.name || jsStartsWith f.type "text/" then
    if readOk then
      [{ id := genId
         name := f.name
         content := f.text
         size := f.size
         type := if f.type = "" then "text/plain" else f.type }]
    else []
  else
    if readOk && !(jsIncludes f.text "\x00") then
      [{ id := genId, name := f.name, content := f.text, size := f.size, type := f.type }]
    else []

/-- Per-file dispatch of FileUpload.tsx handleFileChange: zip containers go
through the archive path (contributing nothing when the archive fails to
open), everything else through the single-file path. -/
def handleOneFile (genId : Nat → String) (f : RawFile) (zipOk readOk : Bool) : List UploadedFile :=
  if isZipUpload f then
    (if zipOk then processZip genId f.entries else [])
  else
    processSingleFile (genId 0) f readOk

/-! Session lifecycle, streaming exchange and persistence (App.tsx), modelled
as pure transformers over an explicit application state. External effects are
passed in as outcome parameters. -/

/-- Sidebar tab of App.tsx. -/
inductive Tab where
  | upload
  | library
deriving DecidableEq

/-- Application state of App.tsx: the live upload list, the persisted
knowledge bases (in-memory index), the UI flags, the session handle (modelled
by the system instruction it was created from), the chat state and the durable
storage slot (modelled by the parsed value it holds). -/
structure AppState where
  files : List UploadedFile
  savedKBs : List KnowledgeBase
  activeTab : Tab
  sessionActive : Bool
  chatInstance : Option String
  showSaveInput : Bool
  saveName : String
  inputMessage : String
  chatState : ChatState
  storage : Option (List KnowledgeBase)
deriving DecidableEq

/-- Fresh chat state used by App.tsx on mount and in the reset handlers. -/
def initialChatState : ChatState :=
  { messages := []
    isLoading := false
    streamingText := ""
    totalInputTokens := 0
    totalOutputTokens := 0 }

/-- Outcome of the external token-counting capability: a response carrying an
optional total, or a thrown failure. -/
inductive CountOutcome where
  | ok (totalTokens : Option Nat)
  | fail
deriving DecidableEq

/-- geminiService.ts estimateTokenCount: return the reported total (defaulting
a missing total to zero) and swallow any failure into zero. The text argument
is what the source sends to the provider; the returned number is the external
outcome. -/
def estimateTokenCount (_text : String) (o : CountOutcome) : Nat :=
  match o with
  | .ok totalTokens => totalTokens.getD 0
  | .fail => 0

/-- Greeting text seeded by App.tsx handleStartSession line 79, referencing
the document count. -/
def greetingText (n : Nat) : String :=
  "Hello! I\x27ve analyzed your " ++ toString n ++
    " document(s). I\x27m ready to answer questions specifically about this knowledge base. How can I help you?"

/-- App.tsx handleStartSession: guard on an empty upload list, assemble the
context, build the instruction, obtain the initial token estimate, then open
the session. On success the chat state is seeded with the single greeting and
the counters are initialized to the estimate and zero; on a session-creation
failure only the loading flag is cleared. -/
def handleStartSession (st : AppState) (countO : CountOutcome) (createOk : Bool) (now : Nat) :
    AppState :=
  if st.files.length = 0 then st
  else
    let knowledgeBase := assembleKnowledgeBase st.files
    let systemInstruction := buildSystemInstruction knowledgeBase
    let initialInputTokens := estimateTokenCount systemInstruction countO
    if createOk then
      { st with
        chatInstance := some systemInstruction
        sessionActive := true
        chatState :=
          { messages := [{ id := "init", role := Role.MODEL,
                           text := greetingText st.files.length, timestamp := now }]
            isLoading := false
            streamingText := ""
            totalInputTokens := initialInputTokens
            totalOutputTokens := 0 } }
    else
      { st with chatState := { st.chatState with isLoading := false } }

/-- App.tsx handleReset: clear the session flag, the session handle and the
chat state; the uploaded files are kept. -/
def handleReset (st : AppState) : AppState :=
  { st with sessionActive := false, chatInstance := none, chatState := initialChatState }

/-- Error value thrown by the streaming transport, as inspected by the catch
block of geminiService.ts sendMessageStream. -/
structure StreamErr where
  message : Option String
  status : Option String
deriving DecidableEq

/-- Error translation of geminiService.ts sendMessageStream lines 88-101:
network/unknown-status conditions become a connectivity diagnosis, other
errors with a non-empty message are prefixed, and everything else becomes the
generic message. -/
def sendMessageStreamErrorText (e : StreamErr) : String :=
  if jsIncludes (e.message.getD "") "http status code: 0" || e.status == some "UNKNOWN" then
    "Connection failed. This could be due to a network issue, an invalid API Key, or a browser extension blocking the request."
  else
    match e.message with
    | some m =>
        if m = "" then "An error occurred while communicating with the AI." else "Error: " ++ m
    | none => "An error occurred while communicating with the AI."

/-- Outcome of one streaming exchange: an in-order chunk sequence with an
optional terminal usage report, or a transport failure after some chunks. -/
inductive StreamOutcome where
  | success (chunks : List String) (usage : Option UsageStats)
  | failure (e : StreamErr) (partialChunks : List String)
deriving DecidableEq

/-- App.tsx handleSendMessage: guard on blank input, missing session handle or
an in-flight turn; append the user message; then either finalize the streamed
model message and add the usage deltas, or (on failure) append exactly one
error-flagged model message, clearing the streaming buffer and leaving the
counters unchanged. -/
def handleSendMessage (st : AppState) (now : Nat) (o : StreamOutcome) : AppState :=
  if jsTrim st.inputMessage = "" ∨ st.chatInstance.isNone = true ∨ st.chatState.isLoading = true then
    st
  else
    let userMsgText := jsTrim st.inputMessage
    let newUserMsg : Message :=
      { id := toString now, role := Role.USER, text := userMsgText, timestamp := now }
    let cs1 : ChatState :=
      { st.chatState with
        messages := st.chatState.messages ++ [newUserMsg]
        isLoading := true
        streamingText := "" }
    let st1 := { st with inputMessage := "", chatState := cs1 }
    match o with
    | .success chunks usage =>
      let fullResponse := String.join chunks
      let newBotMsg : Message :=
        { id := toString (now + 1), role := Role.MODEL, text := fullResponse, timestamp := now }
      { st1 with chatState :=
          { cs1 with
            messages := cs1.messages ++ [newBotMsg]
            isLoading := false
            streamingText := ""
            totalInputTokens := cs1.totalInputTokens + ((usage.map UsageStats.promptTokenCount).getD 0)
            totalOutputTokens := cs1.totalOutputTokens + ((usage.map UsageStats.candidatesTokenCount).getD 0) } }
    | .failure e _partialChunks =>
      let errorText :=
        if sendMessageStreamErrorText e = "" then
          "I encountered an error connecting to the support system."
        else sendMessageStreamErrorText e
      let errorMsg : Message :=
        { id := toString now, role := Role.MODEL, text := errorText, timestamp := now,
          isError := some true }
      { st1 with chatState :=
          { cs1 with
            messages := cs1.messages ++ [errorMsg]
            isLoading := false
            streamingText := "" } }

/-- Error value thrown by the durable storage write, as inspected by the catch
block of App.tsx handleConfirmSave. -/
structure JsError where
  name : String
  message : Option String
deriving DecidableEq

/-- Outcome of one durable storage write. -/
inductive WriteOutcome where
  | ok
  | err (e : JsError)
deriving DecidableEq

/-- User-visible report of one save attempt in App.tsx handleConfirmSave. -/
inductive SaveReport where
  | saved
  | nameRequired
  | quotaAlert
  | genericAlert
deriving DecidableEq

/-- Quota detection of App.tsx handleConfirmSave line 247: the error is named
QuotaExceededError or its lower-cased message mentions quota. -/
def isQuotaError (e : JsError) : Bool :=
  e.name == "QuotaExceededError" || jsIncludes (e.message.getD "").toLower "quota"

/-- App.tsx handleConfirmSave: guard on a blank name; build the new record
with a value copy of the live file list; write the complete updated set to
durable storage first, and only on a successful write update the in-memory
index and the UI state. A failed write leaves all state unchanged and is
reported as a quota alert when the error is quota-shaped, as a generic alert
otherwise. -/
def handleConfirmSave (st : AppState) (now : Nat) (w : WriteOutcome) : AppState × SaveReport :=
  if jsTrim st.saveName = "" then (st, SaveReport.nameRequired)
  else
    let newKB : KnowledgeBase :=
      { id := toString now, name := jsTrim st.saveName, createdAt := now, files := st.files }
    let updatedKBs := st.savedKBs ++ [newKB]
    match w with
    | .ok =>
      ({ st with
          storage := some updatedKBs
          savedKBs := updatedKBs
          showSaveInput := false
          saveName := ""
          activeTab := Tab.library }, SaveReport.saved)
    | .err e =>
      (st, if isQuotaError e then SaveReport.quotaAlert else SaveReport.genericAlert)

/-- App.tsx handleLoadKB: when a session is active the user must confirm (a
refusal leaves the state unchanged) and the session is reset; then the live
file list is replaced by the files of the chosen record. -/
def handleLoadKB (st : AppState) (kb : KnowledgeBase) (confirmAnswer : Bool) : AppState :=
  if st.sessionActive = true ∧ confirmAnswer = false then st
  else
    let st1 := if st.sessionActive then handleReset st else st
    { st1 with files := kb.files, activeTab := Tab.upload }

/-- Sample document used by concrete witnesses. -/
def sampleDoc : UploadedFile :=
  { id := "d1", name := "readme.md", content := "Hello", size := 5, type := "text/markdown" }

/-- Sample application state used by concrete witnesses. -/
def sampleState : AppState :=
  { files := [sampleDoc]
    savedKBs := []
    activeTab := Tab.upload
    sessionActive := false
    chatInstance := none
    showSaveInput := true
    saveName := "KB 1"
    inputMessage := ""
    chatState := initialChatState
    storage := none }

/-- Sample in-session application state used by concrete witnesses. -/
def sampleChattingState : AppState :=
  { sampleState with
    sessionActive := true
    chatInstance := some "sys"
    inputMessage := "How do I begin?"
    chatState :=
      { messages := [{ id := "init", role := Role.MODEL, text := "welcome", timestamp := 0 }]
        isLoading := false
        streamingText := ""
        totalInputTokens := 10
        totalOutputTokens := 2 } }

/-- Prepending arbitrary characters preserves ordered containment. -/
theorem containsInOrder_prepend (a : List Char) {s : List Char} {cs : List (List Char)}
    (h : containsInOrder s cs) : containsInOrder (a ++ s) cs := by
  cases cs with
  | nil => trivial
  | cons c cs =>
    obtain ⟨p, q, rfl, hq⟩ := h
    exact ⟨a ++ p, q, by simp [List.append_assoc], hq⟩

/-- Appending arbitrary characters preserves ordered containment. -/
theorem containsInOrder_append (b : List Char) {s : List Char} {cs : List (List Char)}
    (h : containsInOrder s cs) : containsInOrder (s ++ b) cs := by
  induction cs generalizing s with
  | nil => trivial
  | cons c cs ih =>
    obtain ⟨p, q, rfl, hq⟩ := h
    exact ⟨p, q ++ b, by simp [List.append_assoc], ih hq⟩

/-- The document contents occur in order inside the assembled context string. -/
theorem kb_contents_in_order (files : List UploadedFile) :
    containsInOrder (assembleKnowledgeBase files).data (files.map fun f => f.content.data) := by
  induction files with
  | nil => trivial
  | cons f rest ih =>
    cases rest with
    | nil =>
      refine ⟨("--- Document: " ++ f.name ++ " ---\n").data, "\n".data, ?_, trivial⟩
      simp [assembleKnowledgeBase, joinNl, fmtDoc, List.append_assoc]
    | cons d ds =>
      refine ⟨("--- Document: " ++ f.name ++ " ---\n").data,
        "\n".data ++ ("\n".data ++ (assembleKnowledgeBase (d :: ds)).data), ?_, ?_⟩
      · simp [assembleKnowledgeBase, joinNl, fmtDoc, List.append_assoc]
      · exact containsInOrder_prepend _ (containsInOrder_prepend _ ih)

/-- Dropping leading whitespace distributes over an append whose left part
keeps at least one character. -/
theorem dropLeadingWS_append (a x : List Char)
    (h : (a.dropWhile jsWhitespace).isEmpty = false) :
    dropLeadingWS (a ++ x) = dropLeadingWS a ++ x := by
  unfold dropLeadingWS
  simp [List.dropWhile_append, h]

/-- Dropping trailing whitespace distributes over an append whose right part
keeps at least one character. -/
theorem dropTrailingWS_append (x b : List Char)
    (h : (b.reverse.dropWhile jsWhitespace).isEmpty = false) :
    dropTrailingWS (x ++ b) = x ++ dropTrailingWS b := by
  unfold dropTrailingWS
  simp [List.reverse_append, List.dropWhile_append, h]

set_option maxRecDepth 100000 in
/-- Characters of the assembled instruction: the trimmed template head, the
context characters verbatim, then the trimmed template tail. -/
theorem assemble_data (files : List UploadedFile) :
    (assemble files).data =
      dropLeadingWS instructionPre.data ++
        ((assembleKnowledgeBase files).data ++ dropTrailingWS instructionPost.data) := by
  have h1 : (instructionPre.data.dropWhile jsWhitespace).isEmpty = false := by decide
  have h2 : (instructionPost.data.reverse.dropWhile jsWhitespace).isEmpty = false := by decide
  show dropTrailingWS
      (dropLeadingWS (instructionPre ++ (assembleKnowledgeBase files ++ instructionPost)).data) = _
  rw [String.data_append, String.data_append]
  rw [dropLeadingWS_append _ _ h1]
  rw [show dropLeadingWS instructionPre.data ++
        ((assembleKnowledgeBase files).data ++ instructionPost.data)
      = (dropLeadingWS instructionPre.data ++ (assembleKnowledgeBase files).data)
          ++ instructionPost.data from by rw [List.append_assoc]]
  rw [dropTrailingWS_append _ _ h2]
  rw [List.append_assoc]

/-- C1: assembling the context and wrapping it in the instruction template is a
pure, deterministic function of the ordered document list: value-equal lists
give identical strings, and the document contents occur in the output in
exactly the order of the input list. -/
theorem assemble_pure_and_ordered :
    (∀ D₁ D₂ : List UploadedFile, D₁ = D₂ → assemble D₁ = assemble D₂) ∧
    (∀ D : List UploadedFile, containsInOrder (assemble D).data (D.map fun f => f.content.data)) := by
  constructor
  · intro D₁ D₂ h
    rw [h]
  · intro D
    rw [assemble_data]
    exact containsInOrder_prepend _ (containsInOrder_append _ (kb_contents_in_order D))

/-- Witness for C1 at a concrete two-document list. -/
theorem assemble_pure_and_ordered_witness :
    assemble [{ id := "1", name := "readme.md", content := "Hello", size := 5, type := "text/markdown" }]
      = assemble [{ id := "1", name := "readme.md", content := "Hello", size := 5, type := "text/markdown" }] ∧
    containsInOrder
      (assemble [{ id := "1", name := "readme.md", content := "Hello", size := 5, type := "text/markdown" },
                 { id := "2", name := "guide.txt", content := "World", size := 5, type := "text/plain" }]).data
      (([{ id := "1", name := "readme.md", content := "Hello", size := 5, type := "text/markdown" },
         { id := "2", name := "guide.txt", content := "World", size := 5, type := "text/plain" }] :
            List UploadedFile).map
          fun f => f.content.data) :=
  ⟨assemble_pure_and_ordered.1 _ _ rfl, assemble_pure_and_ordered.2 _⟩

/-- Every document produced by the zip iteration comes from a retained entry:
not a directory, no hidden-metadata marker in the name, no leading dot, and an
allow-listed extension; the document is the image of that entry. -/
theorem processZipGo_mem (genId : Nat → String) (entries : List ZipEntry) :
    ∀ (i : Nat) (d : UploadedFile), d ∈ processZipGo genId i entries →
      ∃ e ∈ entries,
        e.dir = false ∧ jsIncludes e.name "__MACOSX" = false ∧
        jsStartsWith e.name "." = false ∧ isTextFile e.name = true ∧
        ∃ j : Nat, d = zipEntryDoc genId j e := by
  induction entries with
  | nil =>
    intro i d hd
    simp [processZipGo] at hd
  | cons e es ih =>
    intro i d hd
    rw [processZipGo] at hd
    by_cases h1 : (e.dir = true ∨ jsIncludes e.name "__MACOSX" = true ∨
        jsStartsWith e.name "." = true)
    · rw [if_pos h1] at hd
      obtain ⟨e', he', rest⟩ := ih i d hd
      exact ⟨e', List.mem_cons_of_mem _ he', rest⟩
    · rw [if_neg h1] at hd
      simp only [not_or, Bool.not_eq_true] at h1
      obtain ⟨h1a, h1b, h1c⟩ := h1
      by_cases h2 : isTextFile e.name = true
      · rw [if_pos h2] at hd
        rcases List.mem_cons.1 hd with hd | hd
        · exact ⟨e, List.mem_cons_self _ _, h1a, h1b, h1c, h2, i, hd⟩
        · obtain ⟨e', he', rest⟩ := ih (i + 1) d hd
          exact ⟨e', List.mem_cons_of_mem _ he', rest⟩
      · rw [if_neg h2] at hd
        obtain ⟨e', he', rest⟩ := ih i d hd
        exact ⟨e', List.mem_cons_of_mem _ he', rest⟩

/-- C5: no directory entry, no entry whose name contains the hidden-metadata
marker, and no entry whose name begins with a dot ever appears in the
normalized output of a zip archive: every output document originates, name and
content, from an entry that passes all three filters. -/
theorem zip_output_no_hidden_entries (genId : Nat → String) (entries : List ZipEntry)
    (d : UploadedFile) (hd : d ∈ processZip genId entries) :
    ∃ e ∈ entries,
      e.dir = false ∧ jsIncludes e.name "__MACOSX" = false ∧
      jsStartsWith e.name "." = false ∧ d.name = e.name ∧ d.content = e.content := by
  obtain ⟨e, he, h1, h2, h3, _, j, rfl⟩ := processZipGo_mem genId entries 0 d hd
  exact ⟨e, he, h1, h2, h3, rfl, rfl⟩

/-- Witness for C5 at a concrete two-entry archive containing a MacOS
metadata entry. -/
theorem zip_output_no_hidden_entries_witness :
    ∃ e ∈ [({ name := "a.py", dir := false, content := "x" } : ZipEntry),
           { name := "__MACOSX/._a.py", dir := false, content := "y" }],
      e.dir = false ∧ jsIncludes e.name "__MACOSX" = false ∧
      jsStartsWith e.name "." = false ∧
      ({ id := "0", name := "a.py", content := "x", size := 1, type := "text/plain" } :
          UploadedFile).name = e.name ∧
      ({ id := "0", name := "a.py", content := "x", size := 1, type := "text/plain" } :
          UploadedFile).content = e.content :=
  zip_output_no_hidden_entries (fun i => toString i)
    [{ name := "a.py", dir := false, content := "x" },
     { name := "__MACOSX/._a.py", dir := false, content := "y" }]
    { id := "0", name := "a.py", content := "x", size := 1, type := "text/plain" }
    (by decide)

/-- C9: uploading a single non-archive file whose extension is allow-listed
and whose text read succeeds yields exactly one document whose content is the
decoded text and whose size is the declared size. -/
theorem single_text_upload_single_document (genId : Nat → String) (f : RawFile)
    (zipOk readOk : Bool) (hz : isZipUpload f = false) (ht : isTextFile f.name = true)
    (hr : readOk = true) :
    ∃ d : UploadedFile, handleOneFile genId f zipOk readOk = [d] ∧
      d.content = f.text ∧ d.size = f.size := by
  subst hr
  refine ⟨{ id := genId 0, name := f.name, content := f.text, size := f.size,
            type := if f.type = "" then "text/plain" else f.type }, ?_, rfl, rfl⟩
  simp [handleOneFile, hz, processSingleFile, ht]

/-- Witness for C9 at a concrete markdown file. -/
theorem single_text_upload_single_document_witness :
    ∃ d : UploadedFile,
      handleOneFile (fun _ => "id0")
        { name := "a.md", type := "text/markdown", size := 5, text := "Hello", entries := [] }
        false true = [d] ∧
      d.content = ({ name := "a.md", type := "text/markdown", size := 5, text := "Hello",
                     entries := [] } : RawFile).text ∧
      d.size = ({ name := "a.md", type := "text/markdown", size := 5, text := "Hello",
                  entries := [] } : RawFile).size :=
  single_text_upload_single_document (fun _ => "id0")
    { name := "a.md", type := "text/markdown", size := 5, text := "Hello", entries := [] }
    false true (by decide) (by decide) rfl

/-- Counterexample for C10: a single-file upload with an allow-listed
extension but an empty declared media type produces a document whose media
type is text/plain, not the declared (empty) type, so single-file uploads do
not always keep the declared media type. -/
theorem single_upload_declared_type_counterexample :
    ¬ (∀ d ∈ processSingleFile "id0"
          { name := "a.md", type := "", size := 5, text := "hello", entries := [] } true,
        d.type = ({ name := "a.md", type := "", size := 5, text := "hello",
                    entries := [] } : RawFile).type) := by
  decide

/-- Amended C10: every document produced from a zip entry has media type
text/plain and size equal to the character length of its decoded content,
while a document from a single-file upload keeps the declared size and keeps
the declared media type except that an empty declared type becomes text/plain
in the allow-listed/text branch. -/
theorem zip_vs_single_doc_metadata :
    (∀ (genId : Nat → String) (entries : List ZipEntry) (d : UploadedFile),
        d ∈ processZip genId entries →
          d.type = "text/plain" ∧ d.size = d.content.length) ∧
    (∀ (genId : String) (f : RawFile) (readOk : Bool) (d : UploadedFile),
        d ∈ processSingleFile genId f readOk →
          d.size = f.size ∧
          (d.type = f.type ∨ (f.type = "" ∧ d.type = "text/plain"))) := by
  constructor
  · intro genId entries d hd
    obtain ⟨e, _, _, _, _, _, j, rfl⟩ := processZipGo_mem genId entries 0 d hd
    exact ⟨rfl, rfl⟩
  · intro genId f readOk d hd
    unfold processSingleFile at hd
    by_cases h1 : (isTextFile f.name || jsStartsWith f.type "text/") = true
    · rw [if_pos h1] at hd
      cases readOk with
      | false => simp at hd
      | true =>
        rw [if_pos rfl] at hd
        rcases List.mem_singleton.1 hd with rfl
        refine ⟨rfl, ?_⟩
        by_cases ht : f.type = ""
        · exact Or.inr ⟨ht, by simp [ht]⟩
        · exact Or.inl (by simp [ht])
    · rw [if_neg h1] at hd
      by_cases h2 : (readOk && !(jsIncludes f.text "\x00")) = true
      · rw [if_pos h2] at hd
        rcases List.mem_singleton.1 hd with rfl
        exact ⟨rfl, Or.inl rfl⟩
      · rw [if_neg h2] at hd
        simp at hd

/-- Witness for the amended C10 at a concrete zip entry and a concrete
single-file upload. -/
theorem zip_vs_single_doc_metadata_witness :
    (({ id := "0", name := "a.py", content := "xy", size := 2, type := "text/plain" } :
        UploadedFile).type = "text/plain" ∧
      ({ id := "0", name := "a.py", content := "xy", size := 2, type := "text/plain" } :
        UploadedFile).size
        = ({ id := "0", name := "a.py", content := "xy", size := 2, type := "text/plain" } :
            UploadedFile).content.length) ∧
    (({ id := "w", name := "b.md", content := "Hi", size := 9, type := "text/markdown" } :
        UploadedFile).size
        = ({ name := "b.md", type := "text/markdown", size := 9, text := "Hi",
             entries := [] } : RawFile).size ∧
      (({ id := "w", name := "b.md", content := "Hi", size := 9, type := "text/markdown" } :
          UploadedFile).type
          = ({ name := "b.md", type := "text/markdown", size := 9, text := "Hi",
               entries := [] } : RawFile).type ∨
        (({ name := "b.md", type := "text/markdown", size := 9, text := "Hi",
            entries := [] } : RawFile).type = "" ∧
          ({ id := "w", name := "b.md", content := "Hi", size := 9, type := "text/markdown" } :
            UploadedFile).type = "text/plain"))) :=
  ⟨zip_vs_single_doc_metadata.1 (fun i => toString i)
      [{ name := "a.py", dir := false, content := "xy" }]
      { id := "0", name := "a.py", content := "xy", size := 2, type := "text/plain" }
      (by decide),
   zip_vs_single_doc_metadata.2 "w"
      { name := "b.md", type := "text/markdown", size := 9, text := "Hi", entries := [] }
      true
      { id := "w", name := "b.md", content := "Hi", size := 9, type := "text/markdown" }
      (by decide)⟩

/-- C8: the reset transition clears the session-active flag, discards the
session handle, empties the message list, clears the streaming buffer and
zeroes both token counters, while leaving the uploaded document collection
untouched. -/
theorem reset_clears_session_keeps_files (st : AppState) :
    (handleReset st).sessionActive = false ∧
    (handleReset st).chatInstance = none ∧
    (handleReset st).chatState.messages = [] ∧
    (handleReset st).chatState.totalInputTokens = 0 ∧
    (handleReset st).chatState.totalOutputTokens = 0 ∧
    (handleReset st).chatState.streamingText = "" ∧
    (handleReset st).files = st.files := by
  simp [handleReset, initialChatState]

/-- C2: saving the live document list under a non-blank name appends one
record whose documents equal the live list by value; loading that record later
restores exactly that list even if the live list was mutated or cleared (and
whether or not a session had to be reset first), because the saved record is a
value, not a view of the live list. -/
theorem save_then_load_roundtrip (st : AppState) (now : Nat)
    (hne : st.files ≠ []) (hname : jsTrim st.saveName ≠ "") :
    ∃ kb : KnowledgeBase,
      (handleConfirmSave st now WriteOutcome.ok).1.savedKBs = st.savedKBs ++ [kb] ∧
      kb.files = st.files ∧
      ∀ (fs : List UploadedFile) (act : Bool),
        (handleLoadKB
          { (handleConfirmSave st now WriteOutcome.ok).1 with files := fs, sessionActive := act }
          kb true).files = st.files := by
  refine ⟨{ id := toString now, name := jsTrim st.saveName, createdAt := now, files := st.files },
    ?_, rfl, ?_⟩
  · simp [handleConfirmSave, hname]
  · intro fs act
    cases act <;> simp [handleLoadKB, handleReset]

/-- Witness for C2 at a concrete state holding one document. -/
theorem save_then_load_roundtrip_witness :
    ∃ kb : KnowledgeBase,
      (handleConfirmSave sampleState 7 WriteOutcome.ok).1.savedKBs
        = sampleState.savedKBs ++ [kb] ∧
      kb.files = sampleState.files ∧
      ∀ (fs : List UploadedFile) (act : Bool),
        (handleLoadKB
          { (handleConfirmSave sampleState 7 WriteOutcome.ok).1 with
            files := fs
            sessionActive := act }
          kb true).files = sampleState.files :=
  save_then_load_roundtrip sampleState 7 (by decide) (by decide)

/-- C6: a failed durable write leaves the in-memory record set and the storage
slot exactly as before the save, quota-shaped failures (and exactly those) are
reported as the distinguished quota condition, and whenever the in-memory
record set changes at all the durable slot already holds that complete updated
set, reflecting that the write happens before the index update. -/
theorem save_durable_before_memory (st : AppState) (now : Nat)
    (hname : jsTrim st.saveName ≠ "") :
    (∀ e : JsError,
        (handleConfirmSave st now (WriteOutcome.err e)).1.savedKBs = st.savedKBs ∧
        (handleConfirmSave st now (WriteOutcome.err e)).1.storage = st.storage ∧
        ((handleConfirmSave st now (WriteOutcome.err e)).2 = SaveReport.quotaAlert ↔
          isQuotaError e = true)) ∧
    (∀ w : WriteOutcome,
        (handleConfirmSave st now w).1.savedKBs ≠ st.savedKBs →
        (handleConfirmSave st now w).1.storage
          = some ((handleConfirmSave st now w).1.savedKBs)) := by
  constructor
  · intro e
    refine ⟨by simp [handleConfirmSave, hname], by simp [handleConfirmSave, hname], ?_⟩
    by_cases hq : isQuotaError e = true <;> simp [handleConfirmSave, hname, hq]
  · intro w hw
    cases w with
    | ok => simp [handleConfirmSave, hname]
    | err e =>
      exfalso
      apply hw
      simp [handleConfirmSave, hname]

/-- Witness for C6 at a concrete state and a concrete quota error. -/
theorem save_durable_before_memory_witness :
    (∀ e : JsError,
        (handleConfirmSave sampleState 3 (WriteOutcome.err e)).1.savedKBs
          = sampleState.savedKBs ∧
        (handleConfirmSave sampleState 3 (WriteOutcome.err e)).1.storage
          = sampleState.storage ∧
        ((handleConfirmSave sampleState 3 (WriteOutcome.err e)).2 = SaveReport.quotaAlert ↔
          isQuotaError e = true)) ∧
    (∀ w : WriteOutcome,
        (handleConfirmSave sampleState 3 w).1.savedKBs ≠ sampleState.savedKBs →
        (handleConfirmSave sampleState 3 w).1.storage
          = some ((handleConfirmSave sampleState 3 w).1.savedKBs)) :=
  save_durable_before_memory sampleState 3 (by decide)

/-- C4: when the session is successfully started on a non-empty document
list, the output counter is zero, the input counter equals the external token
estimate requested for the freshly built instruction (which is zero when the
counting call failed, a non-fatal condition), and the message list holds
exactly one model greeting referencing the document count. -/
theorem start_success_seeds_counters (st : AppState) (countO : CountOutcome) (now : Nat)
    (hne : st.files ≠ []) :
    (handleStartSession st countO true now).chatState.totalOutputTokens = 0 ∧
    (handleStartSession st countO true now).chatState.totalInputTokens
      = estimateTokenCount (buildSystemInstruction (assembleKnowledgeBase st.files)) countO ∧
    (countO = CountOutcome.fail →
      (handleStartSession st countO true now).chatState.totalInputTokens = 0) ∧
    (handleStartSession st countO true now).chatState.messages
      = [{ id := "init", role := Role.MODEL, text := greetingText st.files.length,
           timestamp := now }] ∧
    (handleStartSession st countO true now).sessionActive = true := by
  have hlen : ¬ st.files.length = 0 := by
    simpa [List.length_eq_zero] using hne
  refine ⟨?_, ?_, ?_, ?_, ?_⟩
  · unfold handleStartSession
    rw [if_neg hlen]
    rfl
  · unfold handleStartSession
    rw [if_neg hlen]
    rfl
  · intro h
    subst h
    unfold handleStartSession
    rw [if_neg hlen]
    rfl
  · unfold handleStartSession
    rw [if_neg hlen]
    rfl
  · unfold handleStartSession
    rw [if_neg hlen]
    rfl

/-- Witness for C4 at a concrete state with one document and an estimate of 42. -/
theorem start_success_seeds_counters_witness :
    (handleStartSession sampleState (CountOutcome.ok (some 42)) true 9).chatState.totalOutputTokens
      = 0 ∧
    (handleStartSession sampleState (CountOutcome.ok (some 42)) true 9).chatState.totalInputTokens
      = estimateTokenCount (buildSystemInstruction (assembleKnowledgeBase sampleState.files))
          (CountOutcome.ok (some 42)) ∧
    (CountOutcome.ok (some 42) = CountOutcome.fail →
      (handleStartSession sampleState (CountOutcome.ok (some 42)) true 9).chatState.totalInputTokens
        = 0) ∧
    (handleStartSession sampleState (CountOutcome.ok (some 42)) true 9).chatState.messages
      = [{ id := "init", role := Role.MODEL, text := greetingText sampleState.files.length,
           timestamp := 9 }] ∧
    (handleStartSession sampleState (CountOutcome.ok (some 42)) true 9).sessionActive = true :=
  start_success_seeds_counters sampleState (CountOutcome.ok (some 42)) 9 (by decide)

/-- C3: a failed streaming turn leaves both cumulative token counters
unchanged, clears the streaming buffer and the busy flag, and appends exactly
one error-flagged model message after the user message of the turn, which is
kept; the handler is modelled as a total function of the failure outcome, so
no exception escapes its boundary. -/
theorem sendTurn_failure_semantics (st : AppState) (now : Nat) (e : StreamErr)
    (partialChunks : List String)
    (hmsg : jsTrim st.inputMessage ≠ "") (hchat : st.chatInstance.isNone = false)
    (hbusy : st.chatState.isLoading = false) :
    (handleSendMessage st now (StreamOutcome.failure e partialChunks)).chatState.totalInputTokens
      = st.chatState.totalInputTokens ∧
    (handleSendMessage st now (StreamOutcome.failure e partialChunks)).chatState.totalOutputTokens
      = st.chatState.totalOutputTokens ∧
    (handleSendMessage st now (StreamOutcome.failure e partialChunks)).chatState.streamingText
      = "" ∧
    (handleSendMessage st now (StreamOutcome.failure e partialChunks)).chatState.isLoading
      = false ∧
    ∃ u m : Message,
      (handleSendMessage st now (StreamOutcome.failure e partialChunks)).chatState.messages
        = st.chatState.messages ++ [u, m] ∧
      u.role = Role.USER ∧ u.text = jsTrim st.inputMessage ∧ u.isError = none ∧
      m.role = Role.MODEL ∧ m.isError = some true := by
  have hguard : ¬ (jsTrim st.inputMessage = "" ∨ st.chatInstance.isNone = true ∨
      st.chatState.isLoading = true) := by
    simp [hmsg, hchat, hbusy]
  refine ⟨?_, ?_, ?_, ?_,
    ⟨{ id := toString now, role := Role.USER, text := jsTrim st.inputMessage, timestamp := now },
     { id := toString now, role := Role.MODEL,
       text := if sendMessageStreamErrorText e = "" then
           "I encountered an error connecting to the support system."
         else sendMessageStreamErrorText e,
       timestamp := now, isError := some true }, ?_, rfl, rfl, rfl, rfl, rfl⟩⟩
  · unfold handleSendMessage
    rw [if_neg hguard]
  · unfold handleSendMessage
    rw [if_neg hguard]
  · unfold handleSendMessage
    rw [if_neg hguard]
  · unfold handleSendMessage
    rw [if_neg hguard]
  · unfold handleSendMessage
    rw [if_neg hguard]
    simp [List.append_assoc]

/-- Witness for C3 at a concrete in-session state and a concrete transport
error. -/
theorem sendTurn_failure_semantics_witness :
    (handleSendMessage sampleChattingState 5
        (StreamOutcome.failure { message := some "boom", status := none } ["par"])).chatState.totalInputTokens
      = sampleChattingState.chatState.totalInputTokens ∧
    (handleSendMessage sampleChattingState 5
        (StreamOutcome.failure { message := some "boom", status := none } ["par"])).chatState.totalOutputTokens
      = sampleChattingState.chatState.totalOutputTokens ∧
    (handleSendMessage sampleChattingState 5
        (StreamOutcome.failure { message := some "boom", status := none } ["par"])).chatState.streamingText
      = "" ∧
    (handleSendMessage sampleChattingState 5
        (StreamOutcome.failure { message := some "boom", status := none } ["par"])).chatState.isLoading
      = false ∧
    ∃ u m : Message,
      (handleSendMessage sampleChattingState 5
          (StreamOutcome.failure { message := some "boom", status := none } ["par"])).chatState.messages
        = sampleChattingState.chatState.messages ++ [u, m] ∧
      u.role = Role.USER ∧ u.text = jsTrim sampleChattingState.inputMessage ∧ u.isError = none ∧
      m.role = Role.MODEL ∧ m.isError = some true :=
  sendTurn_failure_semantics sampleChattingState 5 { message := some "boom", status := none }
    ["par"] (by decide) (by decide) (by decide)

/-- C7: during the lifetime of one active session the token counters never
decrease (every streaming turn, successful or failed, only adds non-negative
deltas), and the counters start afresh at each session boundary: a successful
start sets the output counter to zero and the input counter to the
fresh-context estimate, independently of any previous counter values, and the
reset transition clears both counters to zero. -/
theorem token_counters_monotone_and_fresh :
    (∀ (st : AppState) (now : Nat) (o : StreamOutcome),
        st.chatState.totalInputTokens
          ≤ (handleSendMessage st now o).chatState.totalInputTokens ∧
        st.chatState.totalOutputTokens
          ≤ (handleSendMessage st now o).chatState.totalOutputTokens) ∧
    (∀ (st : AppState) (countO : CountOutcome) (now : Nat), st.files ≠ [] →
        (handleStartSession st countO true now).chatState.totalOutputTokens = 0 ∧
        (handleStartSession st countO true now).chatState.totalInputTokens
          = estimateTokenCount (buildSystemInstruction (assembleKnowledgeBase st.files))
              countO) ∧
    (∀ st : AppState,
        (handleReset st).chatState.totalInputTokens = 0 ∧
        (handleReset st).chatState.totalOutputTokens = 0) := by
  refine ⟨?_, ?_, ?_⟩
  · intro st now o
    by_cases h : (jsTrim st.inputMessage = "" ∨ st.chatInstance.isNone = true ∨
        st.chatState.isLoading = true)
    · constructor
      · unfold handleSendMessage
        rw [if_pos h]
      · unfold handleSendMessage
        rw [if_pos h]
    · cases o with
      | success chunks usage =>
        constructor
        · unfold handleSendMessage
          rw [if_neg h]
          exact Nat.le_add_right _ _
        · unfold handleSendMessage
          rw [if_neg h]
          exact Nat.le_add_right _ _
      | failure e p =>
        constructor
        · unfold handleSendMessage
          rw [if_neg h]
        · unfold handleSendMessage
          rw [if_neg h]
  · intro st countO now hne
    have hlen : ¬ st.files.length = 0 := by
      simpa [List.length_eq_zero] using hne
    constructor
    · unfold handleStartSession
      rw [if_neg hlen]
      rfl
    · unfold handleStartSession
      rw [if_neg hlen]
      rfl
  · intro st
    exact ⟨rfl, rfl⟩

/-- Witness for C7 combining a concrete failed turn, a concrete successful
start and a concrete reset. -/
theorem token_counters_monotone_and_fresh_witness :
    (sampleChattingState.chatState.totalInputTokens
        ≤ (handleSendMessage sampleChattingState 5
            (StreamOutcome.failure { message := none, status := some "UNKNOWN" } [])).chatState.totalInputTokens ∧
      sampleChattingState.chatState.totalOutputTokens
        ≤ (handleSendMessage sampleChattingState 5
            (StreamOutcome.failure { message := none, status := some "UNKNOWN" } [])).chatState.totalOutputTokens) ∧
    ((handleStartSession sampleState (CountOutcome.ok (some 11)) true 2).chatState.totalOutputTokens
        = 0 ∧
      (handleStartSession sampleState (CountOutcome.ok (some 11)) true 2).chatState.totalInputTokens
        = estimateTokenCount (buildSystemInstruction (assembleKnowledgeBase sampleState.files))
            (CountOutcome.ok (some 11))) ∧
    ((handleReset sampleChattingState).chatState.totalInputTokens = 0 ∧
      (handleReset sampleChattingState).chatState.totalOutputTokens = 0) :=
  ⟨token_counters_monotone_and_fresh.1 sampleChattingState 5
      (StreamOutcome.failure { message := none, status := some "UNKNOWN" } []),
   token_counters_monotone_and_fresh.2.1 sampleState (CountOutcome.ok (some 11)) 2 (by decide),
   token_counters_monotone_and_fresh.2.2 sampleChattingState⟩
